import Mathlib

/-!
Shallow embedding of the resilient multi-provider travel-info engine
(`src/server.js`): the retrying JSON fetch primitive, the geocoding
fallback chain, the enrichment fan-out aggregator and the batch runner.

Network effects are modelled by environments that supply, for each
distinct provider call a run could make, the outcome that call would
have (a parsed response, or a thrown error's message).  Every operation
additionally returns the list of network calls it actually issued, so
that claims about calls *not* being made are expressible.
-/

namespace TravelServer

/-- A JavaScript number as consumed by this program: either a finite
value (modelled as a rational) or a non-finite one (`NaN`/`±Infinity`,
for which `Number.isFinite` is `false`).  `none` is the non-finite case. -/
abbrev JSNum := Option ℚ

/-- JS truthiness of a possibly-absent string: `null`/`undefined` and
`""` are falsy. -/
def jsTruthy : Option String → Bool
  | none => false
  | some s => s ≠ ""

/-- Model of `(x || '').toUpperCase() || null`: upper-case a possibly-absent
string, turning an absent or empty value into `null`. -/
def jsUpperOrNull : Option String → Option String
  | none => none
  | some s => if s = "" then none else some s.toUpper

/-- Model of `x || null` on a possibly-absent string: an empty string becomes
`null`. -/
def jsOrNullStr : Option String → Option String
  | none => none
  | some s => if s = "" then none else some s

/-- Model of `x || null` on a possibly-absent number: `0` (and absence) becomes
`null`.  (`NaN` cannot reach this point in the modelled code paths.) -/
def jsOrNullNum : Option ℚ → Option ℚ
  | none => none
  | some q => if q = 0 then none else some q

/-- Model of `l.slice(-n)`: the last `n` elements of a list (the whole list when
it is shorter than `n`). -/
def takeLast (n : Nat) (l : List α) : List α := l.drop (l.length - n)

/-- JavaScript's `String.prototype.trim`: strip leading and trailing
whitespace. -/
def jsTrim (s : String) : String :=
  ⟨((s.data.dropWhile Char.isWhitespace).reverse.dropWhile
      Char.isWhitespace).reverse⟩

/-! ## Resilient fetch (`fetchJSON`) -/

/-- What the network returns for one attempt of `fetchJSON`:
either an HTTP response (status plus body text), or a transport-level
failure (DNS, connection, timeout/abort); for the latter we carry the
message `explainFetchError` would build from the underlying cause. -/
inductive FetchResp where
  | http (status : Nat) (body : String)
  | transport (msg : String)
deriving DecidableEq, Repr

/-- The HTTP statuses `fetchJSON` classifies as retryable. -/
def retryableStatuses : List Nat := [408, 425, 429, 500, 502, 503, 504]

/-- The error message built for a non-2xx response:
`HTTP <status> em <url>` plus a body snippet truncated to 200
characters when the body is non-empty. -/
def httpErrorMsg (status : Nat) (url : String) (body : String) : String :=
  "HTTP " ++ toString status ++ " em " ++ url ++
    (if body = "" then "" else " - " ++ body.take 200)

/-- Outcome of the `try` block of one iteration of `fetchJSON`'s loop:
the function returns a parsed value, or an exception reaches the
`catch` handler, or `lastErr` is assigned and the loop continues. -/
inductive TryOut (α : Type) where
  | ret (a : α)
  | thrown (msg : String)
  | softErr (msg : String)
deriving Repr

/-- The `try` block of one iteration of `fetchJSON`'s retry loop, for
attempt number `attempt` out of `retries + 1`.  `server` gives the
network's response to each attempt and `parse` is `JSON.parse`
(returning `none` on a syntax error).  Note that the `throw` for a
non-retryable (or final-attempt) HTTP error happens inside the `try`
block in the source, so it surfaces here as `thrown`, to be handled by
the `catch` logic in `fetchAttempt`. -/
def fetchTryBlock (server : Nat → FetchResp) (parse : String → Option α)
    (url : String) (retries attempt : Nat) : TryOut α :=
  match server attempt with
  | .http status body =>
    if 200 ≤ status ∧ status ≤ 299 then
      match parse body with
      | some a => .ret a
      | none =>
        if attempt = retries then .thrown ("JSON inválido de " ++ url)
        else .softErr ("JSON inválido de " ++ url)
    else
      let retryable := status ∈ retryableStatuses
      if ¬ retryable ∨ attempt = retries then
        .thrown (httpErrorMsg status url body)
      else .softErr (httpErrorMsg status url body)
  | .transport msg => .thrown msg

/-- The retry loop of `fetchJSON`, returning the final outcome together with
the number of attempts actually issued.  `fuel` is the number of loop
iterations still permitted (`retries + 1 - attempt`); when the loop
runs out it throws `lastErr` (or a generic failure).  The `catch`
handler rethrows any caught exception exactly when this was the final
attempt, and otherwise records it in `lastErr` and lets the loop
retry. -/
def fetchLoop (server : Nat → FetchResp) (parse : String → Option α)
    (url : String) (retries : Nat) :
    (fuel attempt : Nat) → Option String → Except String α × Nat
  | 0, _, lastErr => (.error (lastErr.getD "Falha desconhecida"), 0)
  | fuel + 1, attempt, _lastErr =>
    match fetchTryBlock server parse url retries attempt with
    | .ret a => (.ok a, 1)
    | .thrown msg =>
      if attempt = retries then (.error msg, 1)
      else
        let (r, n) := fetchLoop server parse url retries fuel (attempt + 1) (some msg)
        (r, n + 1)
    | .softErr msg =>
      let (r, n) := fetchLoop server parse url retries fuel (attempt + 1) (some msg)
      (r, n + 1)

/-- Run of `fetchJSON` with the given url and retry count against a
modelled network: the result and the number of attempts made. -/
def fetchJSON (server : Nat → FetchResp) (parse : String → Option α)
    (url : String) (retries : Nat) : Except String α × Nat :=
  fetchLoop server parse url retries (retries + 1) 0 none

/-- A provider stub that answers every attempt with the same HTTP
response. -/
def constServer (status : Nat) (body : String) : Nat → FetchResp :=
  fun _ => .http status body

/-! ## Data model of the resolution pipeline -/

/-- A network call the pipeline can issue while processing one item.
`geoGate` is an acquisition of the shared geocoding rate gate
(`waitGeocodeSlot`); the others are the individual provider requests. -/
inductive NetCall where
  | geoA | geoGate | geoB | geoC | geoReverse
  | weather | country | holidays | exchange
deriving DecidableEq, Repr

/-- Whether a call belongs to the geocode resolver (as opposed to the
enrichment aggregator). -/
def NetCall.isGeo : NetCall → Bool
  | .geoA | .geoGate | .geoB | .geoC | .geoReverse => true
  | _ => false

/-- A resolved place, as produced by `geocodeCity`. -/
structure GeoResult where
  name : String
  country : Option String
  country_code : Option String
  latitude : JSNum
  longitude : JSNum
  timezone : Option String
deriving DecidableEq, Repr

/-- One result object of the Open-Meteo geocoding response, at the
fields the program consumes. -/
structure OMResult where
  name : String
  country : Option String
  country_code : Option String
  latitude : JSNum
  longitude : JSNum
  timezone : Option String
deriving DecidableEq, Repr

/-- The Open-Meteo geocoding response: its `results` array (an absent
array behaves like an empty one). -/
structure OMResp where
  results : List OMResult
deriving DecidableEq, Repr

/-- One result object of a Nominatim-style search response, at the
fields the program consumes.  `lat`/`lon` carry the value
`parseFloat` yields on the provider's coordinate strings. -/
structure NomResult where
  lat : JSNum
  lon : JSNum
  address_country_code : Option String
  address_country : Option String
  display_name : Option String
deriving DecidableEq, Repr

/-- A Nominatim reverse-geocoding response, at the one field the
program consumes. -/
structure RevResp where
  address_country_code : Option String
deriving DecidableEq, Repr

/-- The Open-Meteo forecast response, at the fields the program
consumes; the two payloads are opaque to the program and modelled as
strings. -/
structure WeatherResp where
  current_weather : Option String
  daily : Option String
deriving DecidableEq, Repr

/-- One country object of a restcountries response, at the fields the
program consumes.  `currencies` lists `Object.entries(c.currencies)`
as (code, name, symbol) triples in entry order. -/
structure CountryResp where
  nameOfficial : Option String
  region : Option String
  subregion : Option String
  capital : List String
  currencies : List (String × Option String × Option String)
  languages : List String
  idd_root : Option String
  idd_suffixes : List String
deriving DecidableEq, Repr

/-- One public holiday of the holidays response: its ISO date and its
(otherwise unused) payload. -/
structure Holiday where
  date : String
  localName : String
deriving DecidableEq, Repr

/-- The exchange-rate response, at the one field the program consumes:
`data.rates[quote]`, absent when the provider returned no such rate. -/
structure FxResp where
  rate : Option ℚ
deriving DecidableEq, Repr

/-- The modelled network environment for processing one item: for each
distinct provider call the run could make, the outcome that call would
have (`.error` models a thrown/classified fetch failure).  `today` and
`year` model the wall clock reads in `getHolidays`. -/
structure ItemEnv where
  provA : Except String OMResp
  provB : Except String (List NomResult)
  provC : Except String (List NomResult)
  revB : Except String RevResp
  revC : Except String RevResp
  weather : Except String WeatherResp
  country : Except String (List CountryResp)
  country2 : Except String (List CountryResp)
  holidays : Except String (List Holiday)
  fx : Except String FxResp
  today : String
  year : Nat

/-! ## Geocode resolver (`geocodeCity`) -/

/-- Model of `r.display_name?.split(',')[0] || city`: the first comma-delimited
segment of the display string, falling back to the queried city name
when the display string is absent or the segment empty. -/
def displayFirstSegment (displayName : Option String) (city : String) : String :=
  match displayName with
  | none => city
  | some s =>
    let seg := (s.splitOn ",").headD ""
    if seg = "" then city else seg

/-- Build a `GeoResult` from the first result of a Nominatim-style
search (providers B and C share this shape): country code from the
structured address, upper-cased, `null` when absent; when it is absent
and both coordinates are finite, a rate-gated reverse-geocoding
sub-call (`rev`) is attempted to recover it, its failure swallowed.
Also reports whether that sub-call was made. -/
def nomParse (r : NomResult) (rev : Except String RevResp) (city : String) :
    GeoResult × Bool :=
  let cc0 := jsUpperOrNull r.address_country_code
  let country := jsOrNullStr r.address_country
  let needRev := cc0.isNone && r.lat.isSome && r.lon.isSome
  let cc :=
    if needRev then
      match rev with
      | .ok rv =>
        match jsUpperOrNull rv.address_country_code with
        | some c => some c
        | none => cc0
      | .error _ => cc0
    else cc0
  ({ name := displayFirstSegment r.display_name city
     country := country
     country_code := cc
     latitude := r.lat
     longitude := r.lon
     timezone := none }, needRev)

/-- Provider C (`geocode.maps.co`), tried after A and B both failed:
rate-gated search, then `nomParse` with the rate-gated reverse
sub-call.  `tr` is the trace accumulated so far. -/
def geocodeProvC (env : ItemEnv) (city : String) (tr : List NetCall) :
    Option GeoResult × List NetCall :=
  let tr := tr ++ [.geoGate, .geoC]
  match env.provC with
  | .ok (r :: _) =>
    let p := nomParse r env.revC city
    (some p.1, tr ++ if p.2 then [.geoGate, .geoReverse] else [])
  | .ok [] => (none, tr)
  | .error _ => (none, tr)

/-- Provider B (official Nominatim), tried after A failed: rate-gated
search, then `nomParse` with the rate-gated reverse sub-call.  Falls
through to provider C when the search throws or returns no result. -/
def geocodeProvB (env : ItemEnv) (city : String) (tr : List NetCall) :
    Option GeoResult × List NetCall :=
  let tr := tr ++ [.geoGate, .geoB]
  match env.provB with
  | .ok (r :: _) =>
    let p := nomParse r env.revB city
    (some p.1, tr ++ if p.2 then [.geoGate, .geoReverse] else [])
  | .ok [] => geocodeProvC env city tr
  | .error _ => geocodeProvC env city tr

/-- The ordered geocoding fallback chain: Open-Meteo, then official
Nominatim, then `geocode.maps.co`; each attempt that throws or yields
no result is swallowed and the next provider tried; `none` after all
three fail. -/
def geocodeCity (env : ItemEnv) (city : String) :
    Option GeoResult × List NetCall :=
  match env.provA with
  | .ok data =>
    match data.results with
    | r :: _ =>
      (some { name := r.name
              country := r.country
              country_code := r.country_code
              latitude := r.latitude
              longitude := r.longitude
              timezone := r.timezone }, [.geoA])
    | [] => geocodeProvB env city [.geoA]
  | .error _ => geocodeProvB env city [.geoA]

/-! ## Enrichment integrations -/

/-- The weather sub-result: `current_weather || null` and
`daily || null` (both opaque objects, hence truthy whenever present). -/
structure Weather where
  current : Option String
  daily : Option String
deriving DecidableEq, Repr

/-- The parsed country-info record `getCountryInfo` builds. -/
structure CountryInfo where
  nameOfficial : Option String
  region : Option String
  subregion : Option String
  capital : Option String
  currencies : List (String × Option String × Option String)
  languages : List String
  callingCode : Option String
deriving DecidableEq, Repr

/-- The holidays sub-result: the queried year, the first five holidays
dated today or later, and the last five dated before today. -/
structure HolidaysInfo where
  year : Nat
  upcoming : List Holiday
  past : List Holiday
deriving DecidableEq, Repr

/-- The exchange sub-result: base currency code, fixed quote currency,
and the looked-up rate. -/
structure Exchange where
  base : String
  quote : String
  rate : ℚ
deriving DecidableEq, Repr

/-- The weather lookup `getWeather`: one forecast request; the call is always issued. -/
def getWeather (resp : Except String WeatherResp) :
    Except String Weather × List NetCall :=
  (resp.map fun d => { current := d.current_weather, daily := d.daily },
   [.weather])

/-- Parse `c = Array.isArray(data) ? data[0] : data` into the
country-info record; an empty response array leaves every field at its
absent/empty default (the record itself is still non-null). -/
def parseCountry (c : Option CountryResp) : CountryInfo :=
  { nameOfficial := c.bind (·.nameOfficial)
    region := c.bind (·.region)
    subregion := c.bind (·.subregion)
    capital := jsOrNullStr (c.bind (·.capital.head?))
    currencies := match c with | some c => c.currencies | none => []
    languages := match c with | some c => c.languages | none => []
    callingCode :=
      match c with
      | some c =>
        match jsOrNullStr c.idd_root, jsOrNullStr c.idd_suffixes.head? with
        | some root, some suffix => some (root ++ suffix)
        | _, _ => none
      | none => none }

/-- The country lookup `getCountryInfo`: skipped entirely (returning `null`, issuing no
request) when the ISO2 code is falsy; otherwise one lookup whose
response array's head is parsed. -/
def getCountryInfo (resp : Except String (List CountryResp))
    (iso2 : Option String) : Except String (Option CountryInfo) × List NetCall :=
  if jsTruthy iso2 then
    match resp with
    | .ok data => (.ok (some (parseCountry data.head?)), [.country])
    | .error e => (.error e, [.country])
  else (.ok none, [])

/-- The holidays lookup `getHolidays`: skipped (returning `null`, issuing no request) when
the ISO2 code is falsy; otherwise one lookup whose chronological list
is partitioned against today's ISO date by string comparison. -/
def getHolidays (resp : Except String (List Holiday)) (today : String)
    (year : Nat) (iso2 : Option String) :
    Except String (Option HolidaysInfo) × List NetCall :=
  if jsTruthy iso2 then
    match resp with
    | .ok data =>
      (.ok (some { year := year
                   upcoming := (data.filter fun h => today ≤ h.date).take 5
                   past := takeLast 5 (data.filter fun h => h.date < today) }),
       [.holidays])
    | .error e => (.error e, [.holidays])
  else (.ok none, [])

/-- The rate lookup `getExchangeRate`: skipped when the base code is falsy; otherwise
one lookup, with a falsy rate (absent or `0`) mapped to `null`. -/
def getExchangeRate (resp : Except String FxResp) (base : Option String) :
    Except String (Option ℚ) × List NetCall :=
  if jsTruthy base then
    match resp with
    | .ok data => (.ok (jsOrNullNum data.rate), [.exchange])
    | .error e => (.error e, [.exchange])
  else (.ok none, [])

/-- Model of `info?.currencies?.[0]?.code || null`: the first currency code of
a possibly-null country-info record, `null` when absent or empty. -/
def firstCurrencyCode (info : Option CountryInfo) : Option String :=
  jsOrNullStr (info.bind fun ci => ci.currencies.head?.map (·.1))

/-- The exchange-rate branch of the aggregator: a second, independent
country-info lookup (against `env.country2`) to obtain the first
currency code, then the rate lookup when that code is truthy.  A
failure of either lookup rejects the whole branch. -/
def fxBranch (env : ItemEnv) (cc : Option String) :
    Except String (Option ℚ) × List NetCall :=
  let cT := getCountryInfo env.country2 cc
  match cT.1 with
  | .error e => (.error e, cT.2)
  | .ok info =>
    let currencyCode := firstCurrencyCode info
    if jsTruthy currencyCode then
      let eT := getExchangeRate env.fx currencyCode
      (eT.1, cT.2 ++ eT.2)
    else (.ok none, cT.2)

/-- The `Promise.allSettled` collapse of one branch: its value when
fulfilled, `null` when rejected. -/
def settled : Except String α → Option α
  | .ok a => some a
  | .error _ => none

/-! ## Enrichment aggregator (`makeTravelInfoRequest`) -/

/-- The destination descriptor of a bundle. -/
structure DestInfo where
  input : String
  resolvedName : String
  country : Option String
  countryCode : Option String
  latitude : JSNum
  longitude : JSNum
  timezone : Option String
deriving DecidableEq, Repr

/-- The composite bundle `makeTravelInfoRequest` returns. -/
structure TravelInfo where
  destination : DestInfo
  weather : Option Weather
  countryInfo : Option CountryInfo
  holidays : Option HolidaysInfo
  exchange : Option Exchange
deriving DecidableEq, Repr

/-- The fan-out aggregator, given an already-resolved `GeoResult`: the
four branches each run to completion (their traces all appear), each
rejected branch's slot is `null`, and `exchange` is populated only
when the settled rate and the sibling country-info branch's first
currency code are both truthy. -/
def enrichBundle (env : ItemEnv) (city : String) (geo : GeoResult) :
    TravelInfo × List NetCall :=
  let weatherT := getWeather env.weather
  let countryT := getCountryInfo env.country geo.country_code
  let holidaysT := getHolidays env.holidays env.today env.year geo.country_code
  let fxT := fxBranch env geo.country_code
  let countryInfo := (settled countryT.1).join
  let fxRate := (settled fxT.1).join
  let weather := settled weatherT.1
  let holidays := (settled holidaysT.1).join
  ({ destination :=
       { input := city
         resolvedName := geo.name
         country := geo.country
         countryCode := geo.country_code
         latitude := geo.latitude
         longitude := geo.longitude
         timezone := geo.timezone }
     weather := weather
     countryInfo := countryInfo
     holidays := holidays
     exchange :=
       match fxRate, firstCurrencyCode countryInfo with
       | some r, some code =>
         if r = 0 then none
         else some { base := code, quote := "BRL", rate := r }
       | _, _ => none },
   weatherT.2 ++ countryT.2 ++ holidaysT.2 ++ fxT.2)

/-- The core `makeTravelInfoRequest`: geocode the city, throwing when all
providers failed; otherwise build the enrichment bundle. -/
def makeTravelInfoRequest (env : ItemEnv) (city : String) :
    Except String TravelInfo × List NetCall :=
  let g := geocodeCity env city
  match g.1 with
  | none =>
    (.error ("Não foi possível geocodificar \"" ++ city ++ "\""), g.2)
  | some geo =>
    let b := enrichBundle env city geo
    (.ok b.1, g.2 ++ b.2)

/-! ## Batch runner (`processItems`) -/

/-- One outcome record of the batch runner (the wall-clock
`processedAt` timestamp is not modelled). -/
structure ItemOutcome where
  originalItem : String
  processed : Bool
  status : String
  error : Option String
  data : Option TravelInfo
deriving DecidableEq, Repr

/-- Behaviour of `explainFetchError` on the errors that reach the batch runner:
they carry a message and no transport cause fields, so the description
is the message itself. -/
def explainFetchError (msg : String) : String := msg

/-- The body of one iteration of `processItems`' loop: a blank
(trimmed-empty) input is immediately recorded as a failure with no
network activity; otherwise `makeTravelInfoRequest` runs and its
success or thrown error becomes the outcome. -/
def processOne (env : ItemEnv) (item : String) : ItemOutcome × List NetCall :=
  let city := jsTrim item
  if city = "" then
    ({ originalItem := item
       processed := false
       status := "error"
       error := some "Destino vazio/ inválido"
       data := none }, [])
  else
    let t := makeTravelInfoRequest env city
    match t.1 with
    | .ok data =>
      ({ originalItem := city
         processed := true
         status := "success"
         error := none
         data := some data }, t.2)
    | .error e =>
      ({ originalItem := city
         processed := false
         status := "error"
         error := some (explainFetchError e)
         data := none }, t.2)

/-- The batch loop from index `i`: one outcome pushed per input, in
input order, each item's network environment indexed by its position. -/
def processGo (env : Nat → ItemEnv) : Nat → List String →
    List ItemOutcome × List NetCall
  | _, [] => ([], [])
  | i, item :: rest =>
    ((processOne (env i) item).1 :: (processGo env (i + 1) rest).1,
     (processOne (env i) item).2 ++ (processGo env (i + 1) rest).2)

/-- The entry point `processItems`: drive the pipeline over the whole batch. -/
def processItems (env : Nat → ItemEnv) (items : List String) :
    List ItemOutcome × List NetCall :=
  processGo env 0 items

/-! ## Concrete environments used by witnesses -/

/-- An environment in which every provider call fails at the transport
level. -/
def envDown : ItemEnv where
  provA := .error "fetch failed | code=ECONNREFUSED"
  provB := .error "fetch failed | code=ECONNREFUSED"
  provC := .error "fetch failed | code=ECONNREFUSED"
  revB := .error "fetch failed | code=ECONNREFUSED"
  revC := .error "fetch failed | code=ECONNREFUSED"
  weather := .error "fetch failed | code=ECONNREFUSED"
  country := .error "fetch failed | code=ECONNREFUSED"
  country2 := .error "fetch failed | code=ECONNREFUSED"
  holidays := .error "fetch failed | code=ECONNREFUSED"
  fx := .error "fetch failed | code=ECONNREFUSED"
  today := "2026-10-11"
  year := 2026

/-- A sample Open-Meteo geocoding result for Lisbon. -/
def omLisboa : OMResult where
  name := "Lisboa"
  country := some "Portugal"
  country_code := some "PT"
  latitude := some (3872 / 100)
  longitude := some (-914 / 100)
  timezone := some "Europe/Lisbon"

/-- An environment in which provider A answers with one result and
every other call would fail. -/
def envAOk : ItemEnv :=
  { envDown with provA := .ok { results := [omLisboa] } }

/-! ## Theorems -/

set_option maxRecDepth 8000 in
/-- Claim C3 fails on the code: `fetchJSON`'s `throw` for a
non-retryable HTTP status sits inside the `try` block, so the
surrounding `catch` swallows it on every non-final attempt and
retries.  Against a stub that always answers 404 with body
`"not found"` and the default `retries = 4`, all five attempts are
issued (not one); the eventual failure description does include the
status code and the body snippet. -/
theorem fetchJSON_404_retried_five_times :
    fetchJSON (α := Unit) (constServer 404 "not found") (fun _ => none)
        "https://example.test" 4 =
      (.error "HTTP 404 em https://example.test - not found", 5) ∧
    (fetchJSON (α := Unit) (constServer 404 "not found") (fun _ => none)
        "https://example.test" 4).2 ≠ 1 := by
  refine ⟨by rfl, by decide⟩

/-- The outcomes of the batch loop, from any starting index: one per
input, in input order. -/
theorem processGo_getElem? (env : Nat → ItemEnv) :
    ∀ (items : List String) (k i : Nat),
      (processGo env k items).1[i]? =
        (items[i]?).map fun s => (processOne (env (k + i)) s).1 := by
  intro items
  induction items with
  | nil => intro k i; simp [processGo]
  | cons a t ih =>
    intro k i
    cases i with
    | zero => simp [processGo]
    | succ j =>
      have h := ih (k + 1) j
      simp only [processGo, List.getElem?_cons_succ]
      rw [h, Nat.add_assoc, Nat.add_comm 1 j]

/-- The batch loop preserves the input length. -/
theorem processGo_length (env : Nat → ItemEnv) :
    ∀ (items : List String) (k : Nat),
      (processGo env k items).1.length = items.length := by
  intro items
  induction items with
  | nil => intro k; rfl
  | cons a t ih => intro k; simp [processGo, ih]

/-- Claim C1: `processItems` returns one `ItemOutcome` per input, same
length and order: the output has the input's length, and the outcome
at every index is exactly the one produced for the input at that
index. -/
theorem processItems_one_outcome_per_input (env : Nat → ItemEnv)
    (items : List String) :
    (processItems env items).1.length = items.length ∧
    ∀ i : Nat,
      (processItems env items).1[i]? =
        (items[i]?).map fun s => (processOne (env i) s).1 := by
  refine ⟨processGo_length env items 0, fun i => ?_⟩
  have h := processGo_getElem? env items 0 i
  simpa using h

/-- Claim C2: a blank or whitespace-only input is recorded as a failure
outcome (`"Destino vazio/ inválido"`) and its processing issues no
network call at all — in particular neither the geocode resolver nor
the enrichment aggregator runs. -/
theorem processOne_blank_no_network (env : ItemEnv) (item : String)
    (h : jsTrim item = "") :
    processOne env item =
      ({ originalItem := item
         processed := false
         status := "error"
         error := some "Destino vazio/ inválido"
         data := none }, []) := by
  simp [processOne, h]

/-- Witness for C2 at the whitespace-only input `"  "`. -/
theorem processOne_blank_no_network_witness :
    (jsTrim "  " = "") ∧
    processOne envDown "  " =
      ({ originalItem := "  "
         processed := false
         status := "error"
         error := some "Destino vazio/ inválido"
         data := none }, []) :=
  ⟨by decide, processOne_blank_no_network envDown "  " (by decide)⟩

/-- Claim C4, first-result-wins: when provider A's response carries at
least one result, `geocodeCity` returns that result directly and its
whole trace is the single provider-A request — so providers B and C
are never invoked, no reverse sub-call happens, and the rate gate is
never acquired. -/
theorem geocodeCity_first_provider_wins (env : ItemEnv) (city : String)
    (r : OMResult) (rest : List OMResult)
    (hA : env.provA = .ok { results := r :: rest }) :
    geocodeCity env city =
      (some { name := r.name
              country := r.country
              country_code := r.country_code
              latitude := r.latitude
              longitude := r.longitude
              timezone := r.timezone }, [.geoA]) := by
  simp [geocodeCity, hA]

/-- Witness for C4: provider A resolves Lisbon, so the chain stops
after one request. -/
theorem geocodeCity_first_provider_wins_witness :
    geocodeCity envAOk "Lisboa" =
      (some { name := "Lisboa"
              country := some "Portugal"
              country_code := some "PT"
              latitude := some (3872 / 100)
              longitude := some (-914 / 100)
              timezone := some "Europe/Lisbon" }, [.geoA]) :=
  geocodeCity_first_provider_wins envAOk "Lisboa" omLisboa [] rfl

/-- Provider A yielded no usable result: its call threw, or its
response carried an empty result set. -/
def provAUnusable (env : ItemEnv) : Bool :=
  match env.provA with
  | .ok d => d.results.isEmpty
  | .error _ => true

/-- A Nominatim-style provider yielded no usable result: the call
threw, or the response array was empty. -/
def nomUnusable (p : Except String (List NomResult)) : Bool :=
  match p with
  | .ok l => l.isEmpty
  | .error _ => true

/-- Claim C5: when every provider in the chain throws or returns an
empty result set, each failure is swallowed, the chain proceeds, and
`geocodeCity` returns `null`; no exception escapes (the resolver is a
total function into `Option GeoResult`). -/
theorem geocodeCity_all_providers_fail (env : ItemEnv) (city : String)
    (hA : provAUnusable env = true) (hB : nomUnusable env.provB = true)
    (hC : nomUnusable env.provC = true) :
    (geocodeCity env city).1 = none := by
  unfold provAUnusable at hA
  unfold nomUnusable at hB hC
  unfold geocodeCity geocodeProvB geocodeProvC
  cases hA' : env.provA with
  | ok d =>
    rw [hA'] at hA
    have hres : d.results = [] := by simpa using hA
    cases hB' : env.provB with
    | ok lB =>
      rw [hB'] at hB
      have hlB : lB = [] := by simpa using hB
      cases hC' : env.provC with
      | ok lC =>
        rw [hC'] at hC
        have hlC : lC = [] := by simpa using hC
        simp [hres, hlB, hlC]
      | error e => simp [hres, hlB]
    | error e =>
      cases hC' : env.provC with
      | ok lC =>
        rw [hC'] at hC
        have hlC : lC = [] := by simpa using hC
        simp [hres, hlC]
      | error e2 => simp [hres]
  | error eA =>
    rw [hA'] at hA
    cases hB' : env.provB with
    | ok lB =>
      rw [hB'] at hB
      have hlB : lB = [] := by simpa using hB
      cases hC' : env.provC with
      | ok lC =>
        rw [hC'] at hC
        have hlC : lC = [] := by simpa using hC
        simp [hlB, hlC]
      | error e => simp [hlB]
    | error e =>
      cases hC' : env.provC with
      | ok lC =>
        rw [hC'] at hC
        have hlC : lC = [] := by simpa using hC
        simp [hlC]
      | error e2 => simp

/-- Witness for C5: with every provider down, resolution yields
`null`. -/
theorem geocodeCity_all_providers_fail_witness :
    provAUnusable envDown = true ∧ nomUnusable envDown.provB = true ∧
    nomUnusable envDown.provC = true ∧
    (geocodeCity envDown "Atlantis").1 = none :=
  ⟨by decide, by decide, by decide,
   geocodeCity_all_providers_fail envDown "Atlantis" (by decide) (by decide)
     (by decide)⟩

/-- Every call provider C's step issues is a geocoding call, provided
the trace accumulated before it was. -/
theorem geocodeProvC_trace_isGeo (env : ItemEnv) (city : String)
    (tr : List NetCall) (htr : tr.all NetCall.isGeo = true) :
    ((geocodeProvC env city tr).2).all NetCall.isGeo = true := by
  unfold geocodeProvC
  split
  · rename_i r t heq
    cases hrev : (nomParse r env.revC city).2 <;>
      simp [hrev, List.all_append, htr, NetCall.isGeo]
  · simp [List.all_append, htr, NetCall.isGeo]
  · simp [List.all_append, htr, NetCall.isGeo]

/-- Every call provider B's step (including its fallback to provider
C) issues is a geocoding call, provided the trace before it was. -/
theorem geocodeProvB_trace_isGeo (env : ItemEnv) (city : String)
    (tr : List NetCall) (htr : tr.all NetCall.isGeo = true) :
    ((geocodeProvB env city tr).2).all NetCall.isGeo = true := by
  have htr' : (tr ++ [NetCall.geoGate, NetCall.geoB]).all NetCall.isGeo = true := by
    simp [List.all_append, htr, NetCall.isGeo]
  unfold geocodeProvB
  split
  · rename_i r t heq
    cases hrev : (nomParse r env.revB city).2 <;>
      simp [hrev, List.all_append, htr, NetCall.isGeo]
  · exact geocodeProvC_trace_isGeo env city _ htr'
  · exact geocodeProvC_trace_isGeo env city _ htr'

/-- Every call the geocode resolver issues is a geocoding call: no
enrichment request appears in its trace. -/
theorem geocodeCity_trace_isGeo (env : ItemEnv) (city : String) :
    ((geocodeCity env city).2).all NetCall.isGeo = true := by
  have hA : ([NetCall.geoA]).all NetCall.isGeo = true := by
    simp [NetCall.isGeo]
  unfold geocodeCity
  split
  · split
    · simp [NetCall.isGeo]
    · exact geocodeProvB_trace_isGeo env city _ hA
  · exact geocodeProvB_trace_isGeo env city _ hA

/-- Claim C9: when geocoding resolves to `null` for a non-blank input,
the item becomes a failure `ItemOutcome` carrying no bundle, and the
enrichment aggregator is never invoked: every network call made for
the item is a geocoding call. -/
theorem geocode_null_short_circuits_item (env : ItemEnv) (item : String)
    (hne : jsTrim item ≠ "") (hgeo : (geocodeCity env (jsTrim item)).1 = none) :
    (processOne env item).1 =
      { originalItem := jsTrim item
        processed := false
        status := "error"
        error := some ("Não foi possível geocodificar \"" ++ jsTrim item ++ "\"")
        data := none } ∧
    ∀ c ∈ (processOne env item).2, c.isGeo = true := by
  have hmk : makeTravelInfoRequest env (jsTrim item) =
      (.error ("Não foi possível geocodificar \"" ++ jsTrim item ++ "\""),
       (geocodeCity env (jsTrim item)).2) := by
    simp [makeTravelInfoRequest, hgeo]
  constructor
  · simp [processOne, hne, hmk, explainFetchError]
  · intro c hc
    have htr : (processOne env item).2 = (geocodeCity env (jsTrim item)).2 := by
      simp [processOne, hne, hmk]
    rw [htr] at hc
    have hall := geocodeCity_trace_isGeo env (jsTrim item)
    exact List.all_eq_true.mp hall c hc

/-- Witness for C9: a non-blank city that no provider resolves. -/
theorem geocode_null_short_circuits_item_witness :
    jsTrim "Atlantis" ≠ "" ∧ (geocodeCity envDown (jsTrim "Atlantis")).1 = none ∧
    (processOne envDown "Atlantis").1 =
      { originalItem := jsTrim "Atlantis"
        processed := false
        status := "error"
        error := some ("Não foi possível geocodificar \"" ++ jsTrim "Atlantis" ++ "\"")
        data := none } :=
  ⟨by decide, by decide,
   (geocode_null_short_circuits_item envDown "Atlantis" (by decide)
      (by decide)).1⟩

/-- Claim C7: with a truthy resolved ISO2 code and a provider response,
the holidays result is the provider's chronological list partitioned
against today's ISO date by string comparison: `upcoming` is the first
five entries dated today or later, `past` the last five entries dated
before today, both of length at most five, every upcoming entry dated
`≥` today and every past entry `<` today.  Without a resolved code the
result is `null` and no request is made. -/
theorem getHolidays_partition (resp : Except String (List Holiday))
    (today : String) (year : Nat) (iso2 : Option String) :
    (jsTruthy iso2 = false → getHolidays resp today year iso2 = (.ok none, [])) ∧
    (∀ data, jsTruthy iso2 = true → resp = .ok data →
      getHolidays resp today year iso2 =
        (.ok (some { year := year
                     upcoming := (data.filter fun h => today ≤ h.date).take 5
                     past := takeLast 5 (data.filter fun h => h.date < today) }),
         [.holidays]) ∧
      ((data.filter fun h => today ≤ h.date).take 5).length ≤ 5 ∧
      (takeLast 5 (data.filter fun h => h.date < today)).length ≤ 5 ∧
      (∀ h ∈ (data.filter fun h => today ≤ h.date).take 5, today ≤ h.date) ∧
      (∀ h ∈ takeLast 5 (data.filter fun h => h.date < today), h.date < today)) := by
  constructor
  · intro h
    simp [getHolidays, h]
  · intro data ht hresp
    refine ⟨by simp [getHolidays, ht, hresp], ?_, ?_, ?_, ?_⟩
    · have := List.length_take_le 5 (data.filter fun h => today ≤ h.date)
      omega
    · simp only [takeLast, List.length_drop]
      omega
    · intro h hh
      have hmem := List.mem_of_mem_take hh
      exact of_decide_eq_true (List.mem_filter.mp hmem).2
    · intro h hh
      have hmem := List.mem_of_mem_drop hh
      exact of_decide_eq_true (List.mem_filter.mp hmem).2

/-- A sample holidays list (chronological, as the provider returns
it). -/
def holidaysW : List Holiday :=
  [⟨"2026-01-01", "Ano Novo"⟩, ⟨"2026-04-25", "Dia da Liberdade"⟩,
   ⟨"2026-12-25", "Natal"⟩]

/-- Witness for C7 on a concrete list around today `2026-10-11`: the
truthy-code branch and the absent-code branch, both via the theorem. -/
theorem getHolidays_partition_witness :
    (getHolidays (.ok holidaysW) "2026-10-11" 2026 none = (.ok none, []) ∧
     getHolidays (.ok holidaysW) "2026-10-11" 2026 (some "PT") =
       (.ok (some { year := 2026
                    upcoming := (holidaysW.filter
                      fun h => "2026-10-11" ≤ h.date).take 5
                    past := takeLast 5 (holidaysW.filter
                      fun h => h.date < "2026-10-11") }),
        [.holidays])) ∧
    ((holidaysW.filter fun h => "2026-10-11" ≤ h.date).take 5).length ≤ 5 ∧
    (takeLast 5 (holidaysW.filter fun h => h.date < "2026-10-11")).length ≤ 5 := by
  have h1 := (getHolidays_partition (.ok holidaysW) "2026-10-11" 2026 none).1 (by decide)
  have h2 := (getHolidays_partition (.ok holidaysW) "2026-10-11" 2026 (some "PT")).2
    holidaysW (by decide) rfl
  exact ⟨⟨h1, h2.1⟩, h2.2.1, h2.2.2.1⟩

/-- Unfolding lemma: the bundle's fields are the settled results of
the four independent branches, and its trace is their concatenation. -/
theorem enrichBundle_fields (env : ItemEnv) (city : String) (geo : GeoResult) :
    (enrichBundle env city geo).1.weather = settled (getWeather env.weather).1 ∧
    (enrichBundle env city geo).1.countryInfo =
      (settled (getCountryInfo env.country geo.country_code).1).join ∧
    (enrichBundle env city geo).1.holidays =
      (settled (getHolidays env.holidays env.today env.year geo.country_code).1).join ∧
    (enrichBundle env city geo).1.exchange =
      (match (settled (fxBranch env geo.country_code).1).join,
             firstCurrencyCode
               ((settled (getCountryInfo env.country geo.country_code).1).join) with
       | some r, some code =>
         if r = 0 then none else some { base := code, quote := "BRL", rate := r }
       | _, _ => none) ∧
    (enrichBundle env city geo).2 =
      (getWeather env.weather).2 ++ (getCountryInfo env.country geo.country_code).2 ++
        (getHolidays env.holidays env.today env.year geo.country_code).2 ++
        (fxBranch env geo.country_code).2 :=
  ⟨rfl, rfl, rfl, rfl, rfl⟩

/-- Model fact: `x || null` on a string yields `some` only for the (non-empty)
string itself. -/
theorem jsOrNullStr_eq_some {x : Option String} {s : String}
    (h : jsOrNullStr x = some s) : x = some s ∧ s ≠ "" := by
  cases x with
  | none => simp [jsOrNullStr] at h
  | some v =>
    by_cases hv : v = "" <;> simp [jsOrNullStr, hv] at h
    subst h
    exact ⟨rfl, hv⟩

/-- Claim C8: the bundle's `exchange` field is non-null exactly when the
settled exchange-rate branch yielded a truthy (non-zero) rate and the
settled country-info branch offers a truthy first currency code; and
when non-null it is the full record: that code as base, the fixed
`"BRL"` quote, and that non-zero rate. -/
theorem exchange_requires_rate_and_currency (env : ItemEnv) (city : String)
    (geo : GeoResult) :
    ((enrichBundle env city geo).1.exchange ≠ none ↔
      (∃ r : ℚ, (settled (fxBranch env geo.country_code).1).join = some r ∧ r ≠ 0) ∧
      ∃ code, firstCurrencyCode (enrichBundle env city geo).1.countryInfo = some code) ∧
    ∀ ex, (enrichBundle env city geo).1.exchange = some ex →
      ex.quote = "BRL" ∧
      firstCurrencyCode (enrichBundle env city geo).1.countryInfo = some ex.base ∧
      (settled (fxBranch env geo.country_code).1).join = some ex.rate ∧
      ex.rate ≠ 0 := by
  obtain ⟨-, hci, -, hex, -⟩ := enrichBundle_fields env city geo
  rw [hci, hex]
  rcases hfx : (settled (fxBranch env geo.country_code).1).join with - | r
  · simp
  · rcases hcode : firstCurrencyCode
        ((settled (getCountryInfo env.country geo.country_code).1).join) with - | code
    · simp
    · by_cases hr : r = 0
      · subst hr
        simp
      · simp only [hr, if_neg]
        constructor
        · simp [hr]
        · intro ex hexr
          simp at hexr
          subst hexr
          exact ⟨rfl, rfl, rfl, hr⟩

/-- Claim C10: `exchange` is coupled to the *sibling* country-info
branch: when that branch rejects, `exchange` is null no matter what
the exchange-rate branch's own independent lookups produced; a
looked-up rate of exactly `0` is mapped to null and likewise forces
`exchange` to null; and a non-null `exchange` always takes its base
code from the sibling branch's first currency. -/
theorem exchange_coupled_to_sibling_branch (env : ItemEnv) (city : String)
    (geo : GeoResult) :
    (∀ e, env.country = .error e → (enrichBundle env city geo).1.exchange = none) ∧
    (env.fx = .ok { rate := some 0 } → (enrichBundle env city geo).1.exchange = none) ∧
    (∀ ex, (enrichBundle env city geo).1.exchange = some ex →
      ∃ ci, (enrichBundle env city geo).1.countryInfo = some ci ∧
        (ci.currencies.head?.map fun c => c.1) = some ex.base ∧ ex.base ≠ "") := by
  obtain ⟨-, hci, -, hex, -⟩ := enrichBundle_fields env city geo
  refine ⟨?_, ?_, ?_⟩
  · intro e he
    have hci0 : (settled (getCountryInfo env.country geo.country_code).1).join = none := by
      by_cases ht : jsTruthy geo.country_code <;>
        simp [getCountryInfo, ht, he, settled]
    rw [hex, hci0]
    rcases (settled (fxBranch env geo.country_code).1).join with - | r <;> rfl
  · intro hfx
    have hfx0 : (settled (fxBranch env geo.country_code).1).join = none := by
      rcases hct : (getCountryInfo env.country2 geo.country_code).1 with e | info
      · simp [fxBranch, hct, settled]
      · by_cases htc : jsTruthy (firstCurrencyCode info) <;>
          simp [fxBranch, hct, htc, getExchangeRate, hfx, jsOrNullNum, settled]
    rw [hex, hfx0]
  · intro ex hexr
    rw [hex] at hexr
    rw [hci]
    rcases hfx : (settled (fxBranch env geo.country_code).1).join with - | r
    · rw [hfx] at hexr
      rcases firstCurrencyCode
          ((settled (getCountryInfo env.country geo.country_code).1).join) with - | c <;>
        simp at hexr
    · rw [hfx] at hexr
      rcases hcode : firstCurrencyCode
          ((settled (getCountryInfo env.country geo.country_code).1).join) with - | code
      · rw [hcode] at hexr
        simp at hexr
      · rw [hcode] at hexr
        by_cases hr : r = 0
        · simp [hr] at hexr
        · simp only [if_neg hr] at hexr
          obtain rfl := Option.some.inj hexr
          obtain ⟨hbind, hne⟩ := jsOrNullStr_eq_some (x :=
            ((settled (getCountryInfo env.country geo.country_code).1).join.bind
              fun ci => ci.currencies.head?.map (·.1))) (by
                rw [← hcode]; rfl)
          obtain ⟨ci, hcieq, hcf⟩ := Option.bind_eq_some.mp hbind
          exact ⟨ci, hcieq, hcf, hne⟩

/-- Helper: `firstCurrencyCode` only yields non-empty codes. -/
theorem firstCurrencyCode_ne_empty {info : Option CountryInfo} {s : String}
    (h : firstCurrencyCode info = some s) : s ≠ "" :=
  (jsOrNullStr_eq_some h).2

/-- Claim C6: the aggregator never fails as a whole and one branch's
failure does not cancel or corrupt the others: when the weather branch
rejects while the country-info, holidays and exchange branches all
succeed, the bundle has `weather = null`, the other three fields
populated from their own branches' results — and the trace still
records all four branches' provider calls. -/
theorem enrichBundle_weather_fails_others_populated (env : ItemEnv)
    (city : String) (geo : GeoResult) (wmsg : String)
    (hW : env.weather = .error wmsg)
    (cc : String) (hcc : geo.country_code = some cc) (hccne : cc ≠ "")
    (cl : List CountryResp) (hC : env.country = .ok cl)
    (hl : List Holiday) (hH : env.holidays = .ok hl)
    (cl2 : List CountryResp) (hC2 : env.country2 = .ok cl2)
    (code2 : String)
    (hcur2 : firstCurrencyCode (some (parseCountry cl2.head?)) = some code2)
    (r : ℚ) (hFx : env.fx = .ok { rate := some r }) (hr : r ≠ 0)
    (code : String)
    (hcur : firstCurrencyCode (some (parseCountry cl.head?)) = some code) :
    (enrichBundle env city geo).1.weather = none ∧
    (enrichBundle env city geo).1.countryInfo = some (parseCountry cl.head?) ∧
    (enrichBundle env city geo).1.holidays =
      some { year := env.year
             upcoming := (hl.filter fun h => env.today ≤ h.date).take 5
             past := takeLast 5 (hl.filter fun h => h.date < env.today) } ∧
    (enrichBundle env city geo).1.exchange =
      some { base := code, quote := "BRL", rate := r } ∧
    (enrichBundle env city geo).2 =
      [.weather, .country, .holidays, .country, .exchange] := by
  have hccT : jsTruthy geo.country_code = true := by
    rw [hcc]; simp [jsTruthy, hccne]
  have hW' : getWeather env.weather = (.error wmsg, [.weather]) := by
    simp [getWeather, hW, Except.map]
  have hCI : getCountryInfo env.country geo.country_code =
      (.ok (some (parseCountry cl.head?)), [.country]) := by
    simp [getCountryInfo, hC, hccT]
  have hCI2 : getCountryInfo env.country2 geo.country_code =
      (.ok (some (parseCountry cl2.head?)), [.country]) := by
    simp [getCountryInfo, hC2, hccT]
  have hH' : getHolidays env.holidays env.today env.year geo.country_code =
      (.ok (some { year := env.year
                   upcoming := (hl.filter fun h => env.today ≤ h.date).take 5
                   past := takeLast 5 (hl.filter fun h => h.date < env.today) }),
       [.holidays]) := by
    simp [getHolidays, hH, hccT]
  have hcode2T : jsTruthy (some code2) = true := by
    simp only [jsTruthy, decide_eq_true_eq]
    exact firstCurrencyCode_ne_empty hcur2
  have hfxB : fxBranch env geo.country_code = (.ok (some r), [.country, .exchange]) := by
    unfold fxBranch
    rw [hCI2]
    simp [hcode2T, getExchangeRate, hcur2, hFx, jsOrNullNum, hr]
  obtain ⟨hw, hci, hh, hex, htr⟩ := enrichBundle_fields env city geo
  refine ⟨?_, ?_, ?_, ?_, ?_⟩
  · rw [hw, hW']
    rfl
  · rw [hci, hCI]
    rfl
  · rw [hh, hH']
    rfl
  · rw [hex, hfxB, hci] at *
    simp only [settled, Option.join]
    rw [hCI]
    simp [settled, hcur, hr]
  · rw [htr, hW', hCI, hH', hfxB]
    rfl

/-- A sample restcountries object for Portugal. -/
def respPT : CountryResp where
  nameOfficial := some "Portuguese Republic"
  region := some "Europe"
  subregion := some "Southern Europe"
  capital := ["Lisbon"]
  currencies := [("EUR", some "Euro", some "€")]
  languages := ["Portuguese"]
  idd_root := some "+3"
  idd_suffixes := ["51"]

/-- A resolved `GeoResult` for Lisbon. -/
def geoPT : GeoResult where
  name := "Lisboa"
  country := some "Portugal"
  country_code := some "PT"
  latitude := some 38
  longitude := some (-9)
  timezone := some "Europe/Lisbon"

/-- An environment where the weather branch rejects and the three
other enrichment branches succeed. -/
def envRich : ItemEnv :=
  { envDown with
    weather := .error "HTTP 500 em https://api.open-meteo.com/v1/forecast"
    country := .ok [respPT]
    country2 := .ok [respPT]
    holidays := .ok holidaysW
    fx := .ok { rate := some 5 } }

/-- Variant of `envRich` with the sibling country-info branch rejecting. -/
def envCountryDown : ItemEnv := { envRich with country := .error "boom" }

/-- Variant of `envRich` with the looked-up exchange rate exactly `0`. -/
def envFxZero : ItemEnv := { envRich with fx := .ok { rate := some 0 } }

/-- Witness for C6 at `envRich`: weather null, the other three fields
populated, all four branches' calls in the trace. -/
theorem enrichBundle_weather_fails_others_populated_witness :
    (enrichBundle envRich "Lisboa" geoPT).1.weather = none ∧
    (enrichBundle envRich "Lisboa" geoPT).1.countryInfo =
      some (parseCountry [respPT].head?) ∧
    (enrichBundle envRich "Lisboa" geoPT).1.holidays =
      some { year := envRich.year
             upcoming := (holidaysW.filter fun h => envRich.today ≤ h.date).take 5
             past := takeLast 5 (holidaysW.filter fun h => h.date < envRich.today) } ∧
    (enrichBundle envRich "Lisboa" geoPT).1.exchange =
      some { base := "EUR", quote := "BRL", rate := 5 } ∧
    (enrichBundle envRich "Lisboa" geoPT).2 =
      [.weather, .country, .holidays, .country, .exchange] :=
  enrichBundle_weather_fails_others_populated envRich "Lisboa" geoPT
    "HTTP 500 em https://api.open-meteo.com/v1/forecast" rfl
    "PT" rfl (by decide) [respPT] rfl holidaysW rfl [respPT] rfl
    "EUR" (by rfl) 5 rfl (by decide) "EUR" (by rfl)

/-- Witness for C8 at `envRich`: the non-null exchange record carries
the sibling branch's first currency code, the fixed quote and the
non-zero settled rate. -/
theorem exchange_requires_rate_and_currency_witness :
    (Exchange.quote { base := "EUR", quote := "BRL", rate := 5 } = "BRL") ∧
    firstCurrencyCode (enrichBundle envRich "Lisboa" geoPT).1.countryInfo =
      some (Exchange.base { base := "EUR", quote := "BRL", rate := 5 }) ∧
    (settled (fxBranch envRich geoPT.country_code).1).join =
      some (Exchange.rate { base := "EUR", quote := "BRL", rate := 5 }) ∧
    Exchange.rate { base := "EUR", quote := "BRL", rate := 5 } ≠ 0 :=
  (exchange_requires_rate_and_currency envRich "Lisboa" geoPT).2
    { base := "EUR", quote := "BRL", rate := 5 } (by rfl)

/-- Witness for C10: a rejected sibling country-info branch and a zero
rate each force `exchange` to null, and a non-null `exchange` draws
its base from the sibling branch's first currency. -/
theorem exchange_coupled_to_sibling_branch_witness :
    (enrichBundle envCountryDown "Lisboa" geoPT).1.exchange = none ∧
    (enrichBundle envFxZero "Lisboa" geoPT).1.exchange = none ∧
    ∃ ci, (enrichBundle envRich "Lisboa" geoPT).1.countryInfo = some ci ∧
      (ci.currencies.head?.map fun c => c.1) =
        some (Exchange.base { base := "EUR", quote := "BRL", rate := 5 }) ∧
      Exchange.base { base := "EUR", quote := "BRL", rate := 5 } ≠ "" :=
  ⟨(exchange_coupled_to_sibling_branch envCountryDown "Lisboa" geoPT).1 "boom" rfl,
   (exchange_coupled_to_sibling_branch envFxZero "Lisboa" geoPT).2.1 rfl,
   (exchange_coupled_to_sibling_branch envRich "Lisboa" geoPT).2.2
     { base := "EUR", quote := "BRL", rate := 5 } (by rfl)⟩

end TravelServer
